import Mathlib

/-!
A shallow embedding of the kinematic-movement and collision-resolution core
of `src/js/actors.js` (Box geometry, Actor movement/gravity/jump state,
collision resolution, and the TileMap grid container), together with proofs
checking the natural-language specification against it.

Modelling conventions:
* JS numbers are modelled as rationals (`ℚ`); all the arithmetic the claims
  exercise is exact.
* Methods that mutate `this` are modelled as functions returning the updated
  record; ambient globals (`world`, `App.timer.lastDelta`, `Date.now()`,
  `mouse`) are gathered in an explicit `Env` record passed to each operation
  that reads them.
* `App.Utils.almostEqual` and `App.Utils.anyIn` live in `js/utilities.js`,
  which is not part of the sources here; they are modelled from the spec
  (see their doc comments).
-/

namespace Actors

/-- Direction tokens passed to `Actor.move` (the `keys` vocabulary:
left/right/up/down). -/
inductive Dir where
  | left
  | right
  | up
  | down
deriving DecidableEq, Repr

/-- The global `keys.left` binding, reduced to its canonical token. -/
def keysLeft : List Dir := [Dir.left]

/-- The global `keys.right` binding. -/
def keysRight : List Dir := [Dir.right]

/-- The global `keys.up` binding. -/
def keysUp : List Dir := [Dir.up]

/-- The global `keys.down` binding. -/
def keysDown : List Dir := [Dir.down]

/-- Modelled from the spec: `App.Utils.anyIn` (from `js/utilities.js`, not
under `src/`) — whether any member of the first list appears in the second. -/
def anyIn (xs ys : List Dir) : Bool :=
  xs.any (fun t => ys.contains t)

/-- Modelled from the spec: `App.Utils.almostEqual` (from `js/utilities.js`,
not under `src/`) — per §4.3 the standing-on test asks that two coordinates
be "within a small epsilon (≈1 unit)" of each other, read as distance ≤ ε. -/
def almostEqual (a b e : ℚ) : Bool :=
  |a - b| ≤ e

/-- A displacement record: the `{x: …, y: …}` objects named `moved` in
`actors.js`. -/
structure Moved where
  x : ℚ
  y : ℚ
deriving DecidableEq, Repr

/-- The geometric part of `Box`: position of the top-left corner and size. -/
structure Box where
  x : ℚ
  y : ℚ
  width : ℚ
  height : ℚ
deriving DecidableEq, Repr

/-- Ambient globals read by the Actor logic: the `world` dimensions and
offsets, `App.timer.lastDelta` (seconds since last frame), `Date.now()`
(milliseconds), and the mouse position (used only while dragging). -/
structure Env where
  worldWidth : ℚ
  worldHeight : ℚ
  xOffset : ℚ
  yOffset : ℚ
  lastDelta : ℚ
  now : ℚ
  mouseX : ℚ
  mouseY : ℚ
deriving DecidableEq, Repr

/-- JS `Box.overlapsX`: closed-interval intersection test on the x-axis;
touching edges count as overlapping. -/
def Box.overlapsX (a b : Box) : Bool :=
  a.x + a.width ≥ b.x && b.x + b.width ≥ a.x

/-- JS `Box.overlapsY`: closed-interval intersection test on the y-axis. -/
def Box.overlapsY (a b : Box) : Bool :=
  a.y + a.height ≥ b.y && b.y + b.height ≥ a.y

/-- JS `Box.overlaps`: both projections intersect. -/
def Box.overlaps (a b : Box) : Bool :=
  a.overlapsX b && a.overlapsY b

/-- The Actor state: a Box plus velocity, gravity/jump bookkeeping and the
per-instance constants of the `Actor` prototype.  `fallLeft` is the JS
three-valued `true`/`false`/`null` field; `jumpDirectionLeft`/`-Right` are
the two fields of the `jumpDirection` object. -/
structure Actor extends Box where
  MOVEAMOUNT : ℚ := 400
  GRAVITY : Bool := false
  G_CONST : ℚ := 1500
  JUMP_VEL : ℚ := 800
  JUMP_DELAY : ℚ := 250
  AIR_CONTROL : ℚ := 1/4
  JUMP_RELEASE : Bool := false
  MULTI_JUMP : Int := 0
  CONTINUOUS_MOVEMENT : Bool := false
  STAY_IN_WORLD : Bool := true
  speed : ℚ := 0
  lastJump : ℚ := 0
  lastDirection : List Dir := []
  lastLooked : List Dir := []
  jumpDirectionLeft : Bool := false
  jumpDirectionRight : Bool := false
  jumpKeyDown : Bool := false
  numJumps : Nat := 0
  inAir : Bool := false
  fallLeft : Option Bool := none
  isBeingDragged : Bool := false
deriving DecidableEq, Repr

/-- JS `Actor.init` with an explicit position and size and every dynamic field
at its prototype default.  (The JS constructor routes position through
`x || center-of-world` defaults; the claims all place bodies at explicit
coordinates, which is what this models.) -/
def Actor.init (x y w h : ℚ) : Actor :=
  { x := x, y := y, width := w, height := h }

/-- JS `Actor.isInAir`. -/
def Actor.isInAir (a : Actor) : Bool := a.inAir

/-- JS `Actor.isJumping`. -/
def Actor.isJumping (a : Actor) : Bool := a.numJumps > 0

/-- JS `Actor.isFalling`. -/
def Actor.isFalling (a : Actor) : Bool := a.isInAir && a.numJumps == 0

/-- JS `Actor.moveOutsideX`: if the boxes intersect, move this Actor to the
nearer side of `other` on the x-axis (comparing centers) with a 1-pixel
buffer, returning the updated Actor and the distance moved. -/
def Actor.moveOutsideX (a : Actor) (other : Box) : Actor × ℚ :=
  if a.toBox.overlaps other then
    if a.x + a.width / 2 < other.x + other.width / 2 then
      let movedTo := other.x - a.width - 1
      ({ a with x := movedTo }, movedTo - a.x)
    else
      let movedTo := other.x + other.width + 1
      ({ a with x := movedTo }, movedTo - a.x)
  else
    (a, 0)

/-- JS `Actor.moveOutsideY`: the y-axis analogue of `moveOutsideX` (the center
comparison here is `≤`, as in the source). -/
def Actor.moveOutsideY (a : Actor) (other : Box) : Actor × ℚ :=
  if a.toBox.overlaps other then
    if a.y + a.height / 2 ≤ other.y + other.height / 2 then
      let movedTo := other.y - a.height - 1
      ({ a with y := movedTo }, movedTo - a.y)
    else
      let movedTo := other.y + other.height + 1
      ({ a with y := movedTo }, movedTo - a.y)
  else
    (a, 0)

/-- JS `Actor.moveOutside`: resolve the axis with the smaller penetration depth
first (ties toward x), then the other axis; returns the updated Actor and
the per-axis displacements applied. -/
def Actor.moveOutside (a : Actor) (other : Box) : Actor × Moved :=
  let dX := min (a.x + a.width - other.x) (other.x + other.width - a.x)
  let dY := min (a.y + a.height - other.y) (other.y + other.height - a.y)
  if dX ≤ dY then
    let (a1, mx) := a.moveOutsideX other
    let (a2, my) := a1.moveOutsideY other
    (a2, { x := mx, y := my })
  else
    let (a1, my) := a.moveOutsideY other
    let (a2, mx) := a1.moveOutsideX other
    (a2, { x := mx, y := my })

/-- JS `Actor.startFalling`: latch the pre-fall horizontal direction as air
momentum when leaving the ground, and mark the Actor airborne. -/
def Actor.startFalling (a : Actor) : Actor :=
  match a.inAir, a.fallLeft with
  | false, some fl =>
      { a with jumpDirectionLeft := fl, jumpDirectionRight := !fl, inAir := true }
  | _, _ => { a with inAir := true }

/-- JS `Actor.stopFalling`: clamp to the world floor if the next gravity step
would exit it, zero a positive (downward) speed, and reset the jump count
and airborne flag. -/
def Actor.stopFalling (a : Actor) (e : Env) : Actor :=
  let a :=
    if a.y + a.height + a.speed * e.lastDelta > e.worldHeight && a.STAY_IN_WORLD then
      { a with y := e.worldHeight - a.height }
    else a
  let a := if a.speed > 0 then { a with speed := 0 } else a
  { a with numJumps := 0, inAir := false }

/-- JS `Actor.standingOn` for a single box: x-projections overlap and the
Actor's bottom edge is within 1 unit of the box's top edge. -/
def Actor.standingOn (a : Actor) (box : Box) : Bool :=
  a.toBox.overlapsX box && almostEqual (a.y + a.height) box.y 1

/-- The local state of one `Actor.move` call: the Actor, the accumulated
`moved` displacement, and the `left` / `right` / `looked` local flags. -/
structure MoveState where
  actor : Actor
  moved : Moved
  leftPressed : Bool
  rightPressed : Bool
  looked : Bool
deriving DecidableEq, Repr

/-- The "Move left. / Move right." blocks of `Actor.move`.  Airborne input
with gravity only applies (at the `AIR_CONTROL` rate) when it opposes or
follows no latched air momentum, and clears the latch. -/
def moveHoriz (s : MoveState) (direction : List Dir) (e : Env) : MoveState :=
  let a := s.actor
  let moveAmount := a.MOVEAMOUNT * e.lastDelta
  if anyIn keysLeft direction &&
      (decide (a.x - moveAmount ≥ 0) || !a.STAY_IN_WORLD) then
    let s := { s with
      leftPressed := true
      looked := true
      actor := { a with fallLeft := some true } }
    let a := s.actor
    if a.GRAVITY && a.isInAir then
      if a.jumpDirectionRight || !a.jumpDirectionLeft then
        { s with
          actor := { a with
            x := a.x - moveAmount * a.AIR_CONTROL
            jumpDirectionRight := false
            jumpDirectionLeft := false }
          moved := { s.moved with x := s.moved.x - moveAmount * a.AIR_CONTROL } }
      else s
    else
      { s with
        actor := { a with x := a.x - moveAmount }
        moved := { s.moved with x := s.moved.x - moveAmount } }
  else if anyIn keysRight direction &&
      (decide (a.x + a.width + moveAmount ≤ e.worldWidth) || !a.STAY_IN_WORLD) then
    let s := { s with
      rightPressed := true
      looked := true
      actor := { a with fallLeft := some false } }
    let a := s.actor
    if a.GRAVITY && a.isInAir then
      if a.jumpDirectionLeft || !a.jumpDirectionRight then
        { s with
          actor := { a with
            x := a.x + moveAmount * a.AIR_CONTROL
            jumpDirectionRight := false
            jumpDirectionLeft := false }
          moved := { s.moved with x := s.moved.x + moveAmount * a.AIR_CONTROL } }
      else s
    else
      { s with
        actor := { a with x := a.x + moveAmount }
        moved := { s.moved with x := s.moved.x + moveAmount } }
  else s

/-- The "Move up / jump." and "Move down." blocks of `Actor.move`.  With
gravity, an up press is a jump attempt gated on the multi-jump budget, the
jump delay (strictly more than `JUMP_DELAY` since the last jump) and,
when `JUMP_RELEASE` is set, on the jump key having been released. -/
def moveVert (s : MoveState) (direction : List Dir) (e : Env) : MoveState :=
  let a := s.actor
  let moveAmount := a.MOVEAMOUNT * e.lastDelta
  if anyIn keysUp direction &&
      (decide (a.y - moveAmount ≥ 0) || !a.STAY_IN_WORLD) then
    let s :=
      if !a.GRAVITY then
        { s with
          actor := { a with y := a.y - moveAmount }
          moved := { s.moved with y := s.moved.y - moveAmount }
          looked := true }
      else if !a.isInAir || decide (a.MULTI_JUMP > (a.numJumps : Int)) ||
          decide (a.MULTI_JUMP = -1) then
        if decide (e.now - a.lastJump > a.JUMP_DELAY) &&
            (!a.JUMP_RELEASE || !a.jumpKeyDown) then
          { s with
            actor := { a with
              speed := -a.JUMP_VEL
              lastJump := e.now
              jumpDirectionRight := s.rightPressed
              jumpDirectionLeft := s.leftPressed
              numJumps := a.numJumps + 1
              inAir := true } }
        else s
      else s
    { s with actor := { s.actor with jumpKeyDown := true } }
  else if anyIn keysDown direction &&
      (decide (a.y + a.height + moveAmount ≤ e.worldHeight) || !a.STAY_IN_WORLD) then
    if !a.isInAir || !a.GRAVITY then
      { s with
        actor := { a with y := a.y + moveAmount }
        moved := { s.moved with y := s.moved.y + moveAmount }
        looked := true }
    else s
  else s

/-- The trailing `if (looked)` block of `Actor.move`: record the direction
as the last-looked direction, restricted to left/right tokens when gravity
is enabled (no diagonal facing). -/
def moveLook (s : MoveState) (direction : List Dir) : MoveState :=
  if s.looked then
    let a := s.actor
    let ll :=
      if a.GRAVITY then
        direction.filter (fun t => keysLeft.contains t || keysRight.contains t)
      else direction
    { s with actor := { a with lastLooked := ll } }
  else s

/-- JS `Actor.move`: empty input either falls back to the last-looked direction
(continuous movement) or bails out; otherwise the horizontal, vertical and
look blocks run in order.  Returns the updated Actor and the displacement. -/
def Actor.move (a : Actor) (direction : List Dir) (e : Env) : Actor × Moved :=
  let moved : Moved := { x := 0, y := 0 }
  if direction.isEmpty && !a.CONTINUOUS_MOVEMENT then
    (a, moved)
  else
    let direction := if direction.isEmpty then a.lastLooked else direction
    let a := { a with lastDirection := direction }
    let s : MoveState :=
      { actor := a
        moved := moved
        leftPressed := false
        rightPressed := false
        looked := false }
    let s := moveHoriz s direction e
    let s := moveVert s direction e
    let s := moveLook s direction
    (s.actor, s.moved)

/-- JS `Actor.update`: drag tracking, then `move`, then gravity integration.
The vertical step uses the speed from before this tick's gravity increment
(`moveStep` is computed first), and air momentum drifts the x-position at
the full rate.  If the vertical step is not applied, the Actor lands. -/
def Actor.update (a : Actor) (direction : List Dir) (e : Env) : Actor × Moved :=
  if a.isBeingDragged then
    let mcx := e.mouseX + e.xOffset - a.width / 2
    let mcy := e.mouseY + e.yOffset - a.height / 2
    ({ a with x := mcx, y := mcy }, { x := mcx - a.x, y := mcy - a.y })
  else
    let moveAmount := a.MOVEAMOUNT * e.lastDelta
    let r := a.move direction e
    let a1 := r.1
    let moved := r.2
    if a1.GRAVITY then
      let moveStep := a1.speed * e.lastDelta
      let a2 := { a1 with speed := a1.speed + a1.G_CONST * e.lastDelta }
      let p :=
        if a2.isInAir &&
            (decide (a2.y + a2.height + moveStep ≤ e.worldHeight) || !a2.STAY_IN_WORLD) then
          let a3 := { a2 with y := a2.y + moveStep }
          let moved := { moved with y := moved.y + moveStep }
          if a3.jumpDirectionLeft &&
              (decide (a3.x - moveAmount ≥ 0) || !a3.STAY_IN_WORLD) then
            ({ a3 with x := a3.x - moveAmount }, { moved with x := moved.x - moveAmount })
          else if a3.jumpDirectionRight &&
              (decide (a3.x + a3.width + moveAmount ≤ e.worldWidth) || !a3.STAY_IN_WORLD) then
            ({ a3 with x := a3.x + moveAmount }, { moved with x := moved.x + moveAmount })
          else (a3, moved)
        else (a2.stopFalling e, moved)
      let a4 := if p.2.x = 0 then { p.1 with fallLeft := none } else p.1
      (a4, p.2)
    else (a1, moved)

/-- JS `Actor.release`: only releasing the jump (up) token clears the
jump-key-held flag, and only when gravity is enabled. -/
def Actor.release (a : Actor) (releasedDirections : List Dir) : Actor :=
  if a.GRAVITY && anyIn keysUp releasedDirections then
    { a with jumpKeyDown := false }
  else a

/-- A JS value held in a TileMap cell: a tile object (the collision-relevant
case is a `Box` instance), the JS `null` (a blank tile), or the JS
`undefined` (an array hole / out-of-range read).  `null` and `undefined`
are distinct: `getAll` filters with `!== null`, which keeps `undefined`. -/
inductive Cell where
  | item (b : Box)
  | null
  | undef
deriving DecidableEq, Repr

/-- A `TileMap`: the cell grid plus `options.startCoords` (the pixel origin)
and `options.cellSize`. -/
structure TileMap where
  grid : List (List Cell)
  startX : ℚ
  startY : ℚ
  cellW : ℚ
  cellH : ℚ
deriving DecidableEq, Repr

/-- JS `TileMap.getRows`: `this.grid.length`. -/
def TileMap.getRows (t : TileMap) : Nat := t.grid.length

/-- JS `TileMap.getCols`: `this.grid.length > 0 ? this.grid[0].length : 0`. -/
def TileMap.getCols (t : TileMap) : Nat := (t.grid.headD []).length

/-- The JS read `this.grid[i][j]`: an index outside the array yields
`undefined`. -/
def TileMap.cellAt (t : TileMap) (i j : Nat) : Cell :=
  (t.grid.getD i []).getD j Cell.undef

/-- JS `TileMap.getAll`: every cell in the `getRows × getCols` index range
whose value is not `null` (the column count is taken from row 0), in
row-major order. -/
def TileMap.getAll (t : TileMap) : List Cell :=
  (List.range t.getRows).flatMap (fun i =>
    (List.range t.getCols).filterMap (fun j =>
      let c := t.cellAt i j
      if c ≠ Cell.null then some c else none))

/-- JS `TileMap.clearAll`.  The source replaces `this.grid` with `new Array(w)`
rows of `new Array(h)` and then writes `grid[i][j] = null` — but `grid`
there is the constructor-scope variable, which after the reassignment no
longer aliases `this.grid`.  The nulls therefore land in the detached old
array, and the observable `this.grid` is left as rows of array holes,
i.e. every cell reads as `undefined` (not `null`). -/
def TileMap.clearAll (t : TileMap) : TileMap :=
  { t with grid := List.replicate t.getRows (List.replicate t.getCols Cell.undef) }

/-- The cell range computed by `TileMap._getCellCoordsInRect` for an
explicit pixel rectangle (the JS defaults for omitted arguments — the
viewport — are not modelled; every claim passes the rectangle).  Fields
follow the JS result array `[startCol, startRow, endCol, endRow]`.
Note the source computes `sye` from `(y - wy + th) / ch` where `y` is the
map origin — the sign of the `wy`/`y` difference is flipped relative to
`sxe`. -/
structure CellRange where
  startCol : Int
  startRow : Int
  endCol : Int
  endRow : Int
deriving DecidableEq, Repr

/-- JS `TileMap._getCellCoordsInRect` (explicit-rectangle form). -/
def TileMap.getCellCoordsInRect (t : TileMap) (wx wy tw th : ℚ) : CellRange :=
  let sx := (wx - t.startX) / t.cellW
  let sy := (wy - t.startY) / t.cellH
  let sxe := (wx + tw - t.startX) / t.cellW
  let sye := (t.startY - wy + th) / t.cellH
  { startCol := ⌊sx⌋, startRow := ⌊sy⌋, endCol := ⌈sxe⌉, endRow := ⌈sye⌉ }

/-- JS `TileMap.getCellsInRect` (explicit-rectangle form): clamp the computed
cell range to the grid and push every non-`null` cell in it, row-major. -/
def TileMap.getCellsInRect (t : TileMap) (x y w h : ℚ) : List Cell :=
  let r := t.getCellCoordsInRect x y w h
  let startRow := (min (t.getRows : Int) (max 0 r.startRow)).toNat
  let endRow := (min (t.getRows : Int) (max 0 r.endRow)).toNat
  let startCol := (min (t.getCols : Int) (max 0 r.startCol)).toNat
  let endCol := (min (t.getCols : Int) (max 0 r.endCol)).toNat
  (List.range' startRow (endRow - startRow)).flatMap (fun i =>
    (List.range' startCol (endCol - startCol)).filterMap (fun j =>
      let c := t.cellAt i j
      if c ≠ Cell.null then some c else none))

/-- An obstacle argument to the collision-resolution operations: a single
`Box`, a `Collection` (its `items`, or equivalently a TileMap of `Box`
tiles via `getAll`), or a raw TileMap `getAll()` cell list.  Non-`Box`
cell values fail every `instanceof` test in `isMoveAllowed` and fall
through to `return true`. -/
inductive Obstacle where
  | single (b : Box)
  | many (items : List Box)
  | tiles (cells : List Cell)
deriving DecidableEq, Repr

/-- Shift an Actor horizontally: the `this.x -= moved.x` / `this.x +=
moved.x` bracketing around the standing-on test in `_collideSolidBox`. -/
def Actor.shiftX (a : Actor) (d : ℚ) : Actor := { a with x := a.x + d }

/-- The penetration fix-up at the top of `_collideSolidBox`: if the Actor
intersects the solid, back out via `moveOutside`. -/
def Actor.afterSeparation (a : Actor) (s : Box) : Actor :=
  if a.toBox.overlaps s then (a.moveOutside s).1 else a

/-- JS `Actor._collideSolidBox`: separate if overlapping, then (with gravity)
run the standing-on test at the previous frame's x-position; if airborne
and collided, zero a rising speed on an underside hit, otherwise clear the
horizontal air momentum.  Returns `(actor, falling, collided)`. -/
def Actor.collideSolidBox (a : Actor) (moved : Moved) (s : Box) (e : Env) :
    Actor × Bool × Bool :=
  let collided := a.toBox.overlaps s
  let a1 := a.afterSeparation s
  if a1.GRAVITY then
    let a2 := a1.shiftX (-moved.x)
    let standing := a2.standingOn s
    let a3 := if standing then a2.stopFalling e else a2
    let falling := !standing
    let a4 := a3.shiftX moved.x
    let a5 :=
      if falling && collided then
        if almostEqual a4.y (s.y + s.height) 1 then
          if a4.speed < 0 then { a4 with speed := 0 } else a4
        else
          { a4 with
            fallLeft := none
            jumpDirectionLeft := false
            jumpDirectionRight := false }
      else a4
    (a5, falling, collided)
  else (a1, true, collided)

/-- The loop body of `Actor.collideSolid` over a container: thread the
Actor, clear `falling` when any item reports standing, and accumulate
`collided`. -/
def collideStep (moved : Moved) (e : Env) (acc : Actor × Bool × Bool) (s : Box) :
    Actor × Bool × Bool :=
  let r := acc.1.collideSolidBox moved s e
  (r.1, if !r.2.1 then false else acc.2.1, acc.2.2 || r.2.2)

/-- JS `Actor.collideSolid`: resolve against a single solid or every item of a
container, then start falling if the Actor ended up standing on nothing.
For a cell list, only `Box` tiles take part (an image tile's duck-typed
fields make every overlap and standing test false).  Returns the updated
Actor and whether any collision occurred. -/
def Actor.collideSolid (a : Actor) (moved : Moved) (o : Obstacle) (e : Env) :
    Actor × Bool :=
  let falling0 := a.GRAVITY &&
    (decide (a.y + a.height ≠ e.worldHeight) || !a.STAY_IN_WORLD)
  let r :=
    match o with
    | Obstacle.single s =>
        let r := a.collideSolidBox moved s e
        (r.1, r.2.1, r.2.2)
    | Obstacle.many items =>
        items.foldl (collideStep moved e) (a, falling0, false)
    | Obstacle.tiles cells =>
        (cells.filterMap (fun c =>
          match c with
          | Cell.item b => some b
          | _ => none)).foldl (collideStep moved e) (a, falling0, false)
  let a2 := if r.2.1 then r.1.startFalling else r.1
  (a2, r.2.2)

/-- The `collideWith instanceof Box` body of `Actor.isMoveAllowed`: the
swept per-axis crossing test, with the optional `fix` interpolation
(halve the other axis's displacement, snap flush on the crossed axis).
Returns `(allowed, actor, moved)`. -/
def Actor.moveAllowedBox (a : Actor) (m : Moved) (s : Box) (fix : Bool) :
    Bool × Actor × Moved :=
  if decide (m.x ≠ 0) &&
      decide (a.x - s.x - s.width ≥ min m.x 0) &&
      decide (a.x + a.width - s.x ≤ max m.x 0) &&
      decide (a.y - s.y - s.height ≤ min m.y 0) &&
      decide (a.y + a.height - s.y ≥ max m.y 0) then
    if fix then
      let my := m.y / 2
      let a1 := { a with y := a.y - my }
      let newX := if m.x > 0 then s.x - a.width else s.x + s.width
      (false, { a1 with x := newX }, { x := newX - a.x, y := my })
    else (false, a, m)
  else if decide (m.y ≠ 0) &&
      decide (a.y - s.y - s.height ≥ min m.y 0) &&
      decide (a.y + a.height - s.y ≤ max m.y 0) &&
      decide (a.x - s.x - s.width ≤ min m.x 0) &&
      decide (a.x + a.width - s.x ≥ max m.x 0) then
    if fix then
      let mx := m.x / 2
      let a1 := { a with x := a.x - mx }
      let newY := if m.y > 0 then s.y - a.height else s.y + s.height
      (false, { a1 with y := newY }, { x := mx, y := newY - a.y })
    else (false, a, m)
  else (true, a, m)

/-- JS `Actor.isMoveAllowed` over a Collection's items: recurse per item and
stop at the first disallowed one. -/
def Actor.moveAllowedList (a : Actor) (m : Moved) (l : List Box) (fix : Bool) :
    Bool × Actor × Moved :=
  match l with
  | [] => (true, a, m)
  | s :: rest =>
      let r := a.moveAllowedBox m s fix
      if r.1 then r.2.1.moveAllowedList r.2.2 rest fix else r

/-- JS `Actor.isMoveAllowed` over a TileMap's `getAll()` cells: non-`Box`
values fail every `instanceof` test and count as allowed. -/
def Actor.moveAllowedCells (a : Actor) (m : Moved) (l : List Cell) (fix : Bool) :
    Bool × Actor × Moved :=
  match l with
  | [] => (true, a, m)
  | Cell.item s :: rest =>
      let r := a.moveAllowedBox m s fix
      if r.1 then r.2.1.moveAllowedCells r.2.2 rest fix else r
  | _ :: rest => a.moveAllowedCells m rest fix

/-- JS `Actor.isMoveAllowed`: dispatch on the obstacle shape. -/
def Actor.isMoveAllowed (a : Actor) (m : Moved) (o : Obstacle) (fix : Bool) :
    Bool × Actor × Moved :=
  match o with
  | Obstacle.single s => a.moveAllowedBox m s fix
  | Obstacle.many items => a.moveAllowedList m items fix
  | Obstacle.tiles cells => a.moveAllowedCells m cells fix

/-! ### Concrete instances used by the witnesses and counterexamples -/

/-- A generic environment: a 1000×1000 world, a centred (zero-offset)
viewport, a 10 ms frame and clock at 1000 ms. -/
def env0 : Env :=
  { worldWidth := 1000
    worldHeight := 1000
    xOffset := 0
    yOffset := 0
    lastDelta := 1/100
    now := 1000
    mouseX := 0
    mouseY := 0 }

/-- The §8 scenario body: a 10×10 box at the origin. -/
def c7Body : Actor := Actor.init 0 0 10 10

/-- The §8 scenario solid: a 10×10 box at (5, 0). -/
def c7Solid : Box := { x := 5, y := 0, width := 10, height := 10 }

/-- A 1×1 TileMap holding one box tile. -/
def c10Map : TileMap :=
  { grid := [[Cell.item { x := 0, y := 0, width := 10, height := 10 }]]
    startX := 0
    startY := 0
    cellW := 10
    cellH := 10 }

/-- The tile of the C2 failing input: row 1 of the map, at (0, 10). -/
def c2Tile : Box := { x := 0, y := 10, width := 10, height := 10 }

/-- A 2×1 TileMap (origin (0,0), 10×10 cells) whose only tile is in row 1. -/
def c2Map : TileMap :=
  { grid := [[Cell.null], [Cell.item c2Tile]]
    startX := 0
    startY := 0
    cellW := 10
    cellH := 10 }

/-- The §3 KinematicBody invariant: `numJumps == 0` whenever
`inAir == false`. -/
def Inv (a : Actor) : Prop := a.inAir = false → a.numJumps = 0

/-- C3 witness Actor: gravity on, resting half a pixel above the solid's
top (no overlap, so no separation step runs). -/
def c3Actor : Actor := { Actor.init 0 (179/2) 10 10 with GRAVITY := true }

/-- The C3 solid: a 10×10 platform whose top edge is at y = 100. -/
def c3Solid : Box := { x := 0, y := 100, width := 10, height := 10 }

/-- C3 counterexample Actor: gravity on, airborne-speed 5, resting half a
pixel above the solid's top. -/
def c3CexActor : Actor :=
  { Actor.init 0 (179/2) 10 10 with GRAVITY := true, speed := 5 }

/-- The C3 counterexample displacement: the body moved 100 px horizontally
this frame. -/
def c3CexMoved : Moved := { x := 100, y := 0 }

/-- The C4 Actor: gravity on, a multi-jump budget of 1, grounded at
(100, 500). -/
def c4Actor : Actor :=
  { Actor.init 100 500 10 10 with GRAVITY := true, MULTI_JUMP := 1 }

/-- The C4 Actor after its first jump, abstractly: airborne with
`numJumps = 1`. -/
def c4AirActor : Actor := { c4Actor with inAir := true, numJumps := 1 }

/-- The C5 Actor: gravity on, `G_CONST` 1000, airborne, speed 0. -/
def c5Actor : Actor :=
  { Actor.init 0 0 10 10 with GRAVITY := true, G_CONST := 1000, inAir := true }

/-- The C5 environment: a 0.1 s frame. -/
def c5Env : Env := { env0 with lastDelta := 1/10 }

/-- The C6 Actor: gravity on, grounded at (100, 500), `lastJump = 0`. -/
def c6Actor : Actor := { Actor.init 100 500 10 10 with GRAVITY := true }

/-! ### C7 — `moveOutside` on the §8 scenario -/

/-- C7 (counterexample): for the body at (0,0,10,10) and the solid at
(5,0,10,10), `overlapsX` is true but `moveOutside` does not put the body
at x = −11 as the spec scenario states. -/
theorem moveOutside_scenario_cex :
    c7Body.toBox.overlapsX c7Solid = true ∧
    (c7Body.moveOutside c7Solid).1.x ≠ -11 := by
  norm_num [c7Body, c7Solid, Actor.init, Actor.moveOutside, Actor.moveOutsideX,
    Actor.moveOutsideY, Box.overlaps, Box.overlapsX, Box.overlapsY, min_def, max_def]

/-- C7 (amended): `overlapsX` is true, and since the body's center x (5) is
left of the solid's center x (10) and the x-penetration (5) is the smaller,
`moveOutside` moves the body to x = solid.x − body.width − 1 = −6, leaving
y unchanged; the returned x-displacement is −6. -/
theorem moveOutside_scenario :
    c7Body.toBox.overlapsX c7Solid = true ∧
    (c7Body.moveOutside c7Solid).1.x = -6 ∧
    (c7Body.moveOutside c7Solid).1.y = 0 ∧
    (c7Body.moveOutside c7Solid).2.x = -6 := by
  norm_num [c7Body, c7Solid, Actor.init, Actor.moveOutside, Actor.moveOutsideX,
    Actor.moveOutsideY, Box.overlaps, Box.overlapsX, Box.overlapsY, min_def, max_def]

/-! ### C10 — `clearAll` followed by `getAll` -/

/-- C10: after `clearAll`, `getAll` is not empty — the cleared cells read
as `undefined`, which survives `getAll`'s `!== null` filter, so a 1×1 map
enumerates to one `undefined` entry instead of `[]`. -/
theorem clearAll_getAll_cex :
    c10Map.clearAll.getAll = [Cell.undef] ∧
    c10Map.clearAll.getAll ≠ ([] : List Cell) := by
  constructor <;> decide

/-! ### C2 — `getCellsInRect` versus intersection with `getAll` -/

/-- C2: the tile at (0,10,10,10) intersects the query rectangle
(0,15,10,10) and is in `getAll`, yet `getCellsInRect 0 15 10 10` returns
`[]`: the end row is computed from `(startY − y + h) / cellH = −1/2`
(sign slip) instead of `(y + h − startY) / cellH = 5/2`, so the clamped
row range [1, 0) is empty. -/
theorem getCellsInRect_misses_tile_cex :
    c2Map.getAll = [Cell.item c2Tile] ∧
    c2Tile.overlaps { x := 0, y := 15, width := 10, height := 10 } = true ∧
    c2Map.getCellsInRect 0 15 10 10 = [] := by
  refine ⟨by decide, ?_, ?_⟩
  · norm_num [c2Tile, Box.overlaps, Box.overlapsX, Box.overlapsY]
  · have h : c2Map.getCellCoordsInRect 0 15 10 10 =
        { startCol := 0, startRow := 1, endCol := 1, endRow := 0 } := by
      norm_num [TileMap.getCellCoordsInRect, c2Map]
    simp only [TileMap.getCellsInRect, h]
    decide

/-! ### C1 — one `moveOutside` call separates overlapping boxes -/

lemma overlaps_false_of_right_lt (a s : Box) (h : a.x + a.width < s.x) :
    a.overlaps s = false := by
  rw [Bool.eq_false_iff]
  intro hc
  simp only [Box.overlaps, Box.overlapsX, Box.overlapsY, Bool.and_eq_true,
    decide_eq_true_eq] at hc
  linarith [hc.1.1]

lemma overlaps_false_of_left_gt (a s : Box) (h : s.x + s.width < a.x) :
    a.overlaps s = false := by
  rw [Bool.eq_false_iff]
  intro hc
  simp only [Box.overlaps, Box.overlapsX, Box.overlapsY, Bool.and_eq_true,
    decide_eq_true_eq] at hc
  linarith [hc.1.2]

lemma overlaps_false_of_bottom_lt (a s : Box) (h : a.y + a.height < s.y) :
    a.overlaps s = false := by
  rw [Bool.eq_false_iff]
  intro hc
  simp only [Box.overlaps, Box.overlapsX, Box.overlapsY, Bool.and_eq_true,
    decide_eq_true_eq] at hc
  linarith [hc.2.1]

lemma overlaps_false_of_top_gt (a s : Box) (h : s.y + s.height < a.y) :
    a.overlaps s = false := by
  rw [Bool.eq_false_iff]
  intro hc
  simp only [Box.overlaps, Box.overlapsX, Box.overlapsY, Bool.and_eq_true,
    decide_eq_true_eq] at hc
  linarith [hc.2.2]

/-- If the Actor overlaps the solid, `moveOutsideX` leaves them
non-overlapping (the moved-to edge keeps a 1-unit gap). -/
lemma moveOutsideX_of_overlaps (a : Actor) (s : Box)
    (h : a.toBox.overlaps s = true) :
    ((a.moveOutsideX s).1).toBox.overlaps s = false := by
  unfold Actor.moveOutsideX
  simp only [h, if_true]
  by_cases hc : a.x + a.width / 2 < s.x + s.width / 2
  · rw [if_pos hc]
    apply overlaps_false_of_right_lt
    simp only [Actor.toBox]
    linarith
  · rw [if_neg hc]
    apply overlaps_false_of_left_gt
    simp only [Actor.toBox]
    linarith

/-- If the Actor overlaps the solid, `moveOutsideY` leaves them
non-overlapping. -/
lemma moveOutsideY_of_overlaps (a : Actor) (s : Box)
    (h : a.toBox.overlaps s = true) :
    ((a.moveOutsideY s).1).toBox.overlaps s = false := by
  unfold Actor.moveOutsideY
  simp only [h, if_true]
  by_cases hc : a.y + a.height / 2 ≤ s.y + s.height / 2
  · rw [if_pos hc]
    apply overlaps_false_of_bottom_lt
    simp only [Actor.toBox]
    linarith
  · rw [if_neg hc]
    apply overlaps_false_of_top_gt
    simp only [Actor.toBox]
    linarith

lemma moveOutsideX_of_not_overlaps (a : Actor) (s : Box)
    (h : a.toBox.overlaps s = false) : a.moveOutsideX s = (a, 0) := by
  unfold Actor.moveOutsideX
  simp [h]

lemma moveOutsideY_of_not_overlaps (a : Actor) (s : Box)
    (h : a.toBox.overlaps s = false) : a.moveOutsideY s = (a, 0) := by
  unfold Actor.moveOutsideY
  simp [h]

/-- C1: for a body and a solid with strictly positive overlap on both axes,
a single `moveOutside` call leaves them non-overlapping (even under the
touching-counts-as-overlap test, thanks to the 1-unit buffer). -/
theorem moveOutside_separates (a : Actor) (s : Box)
    (hx1 : s.x < a.x + a.width) (hx2 : a.x < s.x + s.width)
    (hy1 : s.y < a.y + a.height) (hy2 : a.y < s.y + s.height) :
    ((a.moveOutside s).1).toBox.overlaps s = false := by
  have hov : a.toBox.overlaps s = true := by
    simp only [Box.overlaps, Box.overlapsX, Box.overlapsY, Bool.and_eq_true,
      decide_eq_true_eq, Actor.toBox]
    exact ⟨⟨by linarith, by linarith⟩, by linarith, by linarith⟩
  simp only [Actor.moveOutside]
  by_cases hd : min (a.x + a.width - s.x) (s.x + s.width - a.x) ≤
      min (a.y + a.height - s.y) (s.y + s.height - a.y)
  · rw [if_pos hd]
    have h1 := moveOutsideX_of_overlaps a s hov
    rw [moveOutsideY_of_not_overlaps _ _ h1]
    exact h1
  · rw [if_neg hd]
    have h1 := moveOutsideY_of_overlaps a s hov
    rw [moveOutsideX_of_not_overlaps _ _ h1]
    exact h1

/-- C1 witness: the theorem applied to a body at (0,0,10,10) and a solid at
(5,3,10,10). -/
theorem moveOutside_separates_witness :
    (((Actor.init 0 0 10 10).moveOutside
        { x := 5, y := 3, width := 10, height := 10 }).1).toBox.overlaps
      { x := 5, y := 3, width := 10, height := 10 } = false :=
  moveOutside_separates (Actor.init 0 0 10 10) _
    (by norm_num [Actor.init]) (by norm_num [Actor.init])
    (by norm_num [Actor.init]) (by norm_num [Actor.init])

/-! ### C8 — `isMoveAllowed` with `fix = false` mutates nothing -/

lemma moveAllowedBox_nofix (a : Actor) (m : Moved) (s : Box) :
    (a.moveAllowedBox m s false).2 = (a, m) := by
  unfold Actor.moveAllowedBox
  split_ifs <;> simp_all

lemma moveAllowedList_nofix (l : List Box) (a : Actor) (m : Moved) :
    (a.moveAllowedList m l false).2 = (a, m) := by
  induction l generalizing a m with
  | nil => rfl
  | cons s rest ih =>
      unfold Actor.moveAllowedList
      have hb := moveAllowedBox_nofix a m s
      have h1 : (a.moveAllowedBox m s false).2.1 = a := by rw [hb]
      have h2 : (a.moveAllowedBox m s false).2.2 = m := by rw [hb]
      by_cases h : (a.moveAllowedBox m s false).1 = true
      · rw [if_pos h, h1, h2]
        exact ih a m
      · rw [if_neg h]
        exact hb

lemma moveAllowedCells_nofix (l : List Cell) (a : Actor) (m : Moved) :
    (a.moveAllowedCells m l false).2 = (a, m) := by
  induction l generalizing a m with
  | nil => rfl
  | cons c rest ih =>
      cases c with
      | item s =>
          unfold Actor.moveAllowedCells
          have hb := moveAllowedBox_nofix a m s
          have h1 : (a.moveAllowedBox m s false).2.1 = a := by rw [hb]
          have h2 : (a.moveAllowedBox m s false).2.2 = m := by rw [hb]
          by_cases h : (a.moveAllowedBox m s false).1 = true
          · rw [if_pos h, h1, h2]
            exact ih a m
          · rw [if_neg h]
            exact hb
      | null => exact ih a m
      | undef => exact ih a m

/-- C8: `isMoveAllowed` called with `fix = false` only answers the
question: for every Actor, displacement and obstacle (single box,
collection or tile list), the Actor and the `moved` object come back
exactly as they went in. -/
theorem isMoveAllowed_nofix_pure (a : Actor) (m : Moved) (o : Obstacle) :
    (a.isMoveAllowed m o false).2 = (a, m) := by
  cases o with
  | single s => exact moveAllowedBox_nofix a m s
  | many items => exact moveAllowedList_nofix items a m
  | tiles cells => exact moveAllowedCells_nofix cells a m

/-! ### C9 — grounded Actors always have a zero jump count -/

lemma inv_transfer {x y : Actor} (h1 : x.inAir = y.inAir)
    (h2 : x.numJumps = y.numJumps) (h : Inv y) : Inv x := by
  intro hh
  rw [h2]
  exact h (h1 ▸ hh)

lemma stopFalling_inAir (a : Actor) (e : Env) : (a.stopFalling e).inAir = false := by
  simp only [Actor.stopFalling]

lemma stopFalling_numJumps (a : Actor) (e : Env) : (a.stopFalling e).numJumps = 0 := by
  simp only [Actor.stopFalling]

lemma stopFalling_speed_nonpos (a : Actor) (e : Env) : (a.stopFalling e).speed ≤ 0 := by
  simp only [Actor.stopFalling]
  split_ifs <;> simp_all <;> linarith

lemma inv_stopFalling (a : Actor) (e : Env) : Inv (a.stopFalling e) := by
  intro _
  exact stopFalling_numJumps a e

lemma inv_of_numJumps_zero {x : Actor} (h : x.numJumps = 0) : Inv x :=
  fun _ => h

lemma startFalling_inAir (a : Actor) : a.startFalling.inAir = true := by
  unfold Actor.startFalling
  cases ha : a.inAir <;> cases hf : a.fallLeft <;> simp [ha, hf]

lemma inv_startFalling (a : Actor) : Inv a.startFalling := by
  intro hh
  rw [startFalling_inAir a] at hh
  exact absurd hh (by simp)

lemma moveHoriz_inAir (s : MoveState) (d : List Dir) (e : Env) :
    (moveHoriz s d e).actor.inAir = s.actor.inAir := by
  simp only [moveHoriz]
  split_ifs <;> rfl

lemma moveHoriz_numJumps (s : MoveState) (d : List Dir) (e : Env) :
    (moveHoriz s d e).actor.numJumps = s.actor.numJumps := by
  simp only [moveHoriz]
  split_ifs <;> rfl

lemma moveLook_inAir (s : MoveState) (d : List Dir) :
    (moveLook s d).actor.inAir = s.actor.inAir := by
  simp only [moveLook]
  split_ifs <;> rfl

lemma moveLook_numJumps (s : MoveState) (d : List Dir) :
    (moveLook s d).actor.numJumps = s.actor.numJumps := by
  simp only [moveLook]
  split_ifs <;> rfl

lemma inv_moveVert (s : MoveState) (d : List Dir) (e : Env)
    (h : Inv s.actor) : Inv (moveVert s d e).actor := by
  simp only [moveVert]
  split_ifs <;> intro hh <;> simp_all [Inv]

lemma inv_move (a : Actor) (d : List Dir) (e : Env) (h : Inv a) :
    Inv (a.move d e).1 := by
  simp only [Actor.move]
  split_ifs <;>
    first
      | exact h
      | (refine inv_transfer (moveLook_inAir _ _) (moveLook_numJumps _ _) ?_
         refine inv_moveVert _ _ _ ?_
         refine inv_transfer (moveHoriz_inAir _ _ _) (moveHoriz_numJumps _ _ _) ?_
         exact inv_transfer rfl rfl h)

lemma inv_update (a : Actor) (d : List Dir) (e : Env) (h : Inv a) :
    Inv (a.update d e).1 := by
  have hm := inv_move a d e h
  simp only [Actor.update]
  split_ifs <;>
    first
      | exact inv_transfer rfl rfl h
      | (refine inv_of_numJumps_zero ?_
         simp [stopFalling_numJumps]
         done)
      | (refine inv_transfer ?_ ?_ hm <;> simp)

lemma moveOutsideX_inAir (a : Actor) (s : Box) :
    ((a.moveOutsideX s).1).inAir = a.inAir := by
  simp only [Actor.moveOutsideX]
  split_ifs <;> rfl

lemma moveOutsideX_numJumps (a : Actor) (s : Box) :
    ((a.moveOutsideX s).1).numJumps = a.numJumps := by
  simp only [Actor.moveOutsideX]
  split_ifs <;> rfl

lemma moveOutsideY_inAir (a : Actor) (s : Box) :
    ((a.moveOutsideY s).1).inAir = a.inAir := by
  simp only [Actor.moveOutsideY]
  split_ifs <;> rfl

lemma moveOutsideY_numJumps (a : Actor) (s : Box) :
    ((a.moveOutsideY s).1).numJumps = a.numJumps := by
  simp only [Actor.moveOutsideY]
  split_ifs <;> rfl

lemma moveOutside_inAir (a : Actor) (s : Box) :
    ((a.moveOutside s).1).inAir = a.inAir := by
  simp only [Actor.moveOutside]
  split_ifs <;> simp [moveOutsideX_inAir, moveOutsideY_inAir]

lemma moveOutside_numJumps (a : Actor) (s : Box) :
    ((a.moveOutside s).1).numJumps = a.numJumps := by
  simp only [Actor.moveOutside]
  split_ifs <;> simp [moveOutsideX_numJumps, moveOutsideY_numJumps]

lemma afterSeparation_inAir (a : Actor) (s : Box) :
    (a.afterSeparation s).inAir = a.inAir := by
  simp only [Actor.afterSeparation]
  split_ifs <;> simp [moveOutside_inAir]

lemma afterSeparation_numJumps (a : Actor) (s : Box) :
    (a.afterSeparation s).numJumps = a.numJumps := by
  simp only [Actor.afterSeparation]
  split_ifs <;> simp [moveOutside_numJumps]

lemma inv_collideSolidBox (a : Actor) (m : Moved) (s : Box) (e : Env)
    (h : Inv a) : Inv (a.collideSolidBox m s e).1 := by
  have hsep : Inv (a.afterSeparation s) :=
    inv_transfer (afterSeparation_inAir a s) (afterSeparation_numJumps a s) h
  simp only [Actor.collideSolidBox, Actor.shiftX]
  split_ifs <;>
    first
      | (refine inv_of_numJumps_zero ?_
         simp [stopFalling_numJumps]
         done)
      | (refine inv_transfer ?_ ?_ hsep <;> simp)

lemma inv_collideStep (m : Moved) (e : Env) (acc : Actor × Bool × Bool)
    (s : Box) (h : Inv acc.1) : Inv (collideStep m e acc s).1 :=
  inv_collideSolidBox acc.1 m s e h

lemma inv_collideFold (m : Moved) (e : Env) (l : List Box) :
    ∀ acc : Actor × Bool × Bool, Inv acc.1 →
      Inv (l.foldl (collideStep m e) acc).1 := by
  induction l with
  | nil => exact fun acc h => h
  | cons s rest ih =>
      intro acc h
      exact ih _ (inv_collideStep m e acc s h)

lemma inv_collideSolid (a : Actor) (m : Moved) (o : Obstacle) (e : Env)
    (h : Inv a) : Inv (a.collideSolid m o e).1 := by
  unfold Actor.collideSolid
  have hbody : ∀ r : Actor × Bool × Bool, Inv r.1 →
      Inv (if r.2.1 = true then r.1.startFalling else r.1) := by
    intro r hr
    split_ifs
    · exact inv_startFalling r.1
    · exact hr
  cases o with
  | single s =>
      exact hbody _ (inv_collideSolidBox a m s e h)
  | many items =>
      exact hbody _ (inv_collideFold m e items _ h)
  | tiles cells =>
      exact hbody _ (inv_collideFold m e _ _ h)

lemma inv_release (a : Actor) (r : List Dir) (h : Inv a) : Inv (a.release r) := by
  simp only [Actor.release]
  split_ifs <;> exact inv_transfer (by simp) (by simp) h

/-- C9: the state predicate "not in the air implies a zero jump count"
holds of a freshly initialized Actor and is preserved by `move`, `update`,
`startFalling`, `stopFalling`, `collideSolid` and `release`. -/
theorem grounded_numJumps_zero_invariant :
    (∀ x y w h : ℚ, Inv (Actor.init x y w h)) ∧
    (∀ (a : Actor) (d : List Dir) (e : Env), Inv a → Inv (a.move d e).1) ∧
    (∀ (a : Actor) (d : List Dir) (e : Env), Inv a → Inv (a.update d e).1) ∧
    (∀ a : Actor, Inv a → Inv a.startFalling) ∧
    (∀ (a : Actor) (e : Env), Inv a → Inv (a.stopFalling e)) ∧
    (∀ (a : Actor) (m : Moved) (o : Obstacle) (e : Env),
      Inv a → Inv (a.collideSolid m o e).1) ∧
    (∀ (a : Actor) (r : List Dir), Inv a → Inv (a.release r)) :=
  ⟨fun _ _ _ _ _ => rfl,
   inv_move,
   inv_update,
   fun a _ => inv_startFalling a,
   fun a e _ => inv_stopFalling a e,
   inv_collideSolid,
   inv_release⟩

/-- C9 witness: the preservation statements applied to a freshly
initialized Actor, one `update` tick and one `collideSolid` pass in the
`env0` environment. -/
theorem grounded_numJumps_zero_invariant_witness :
    Inv ((Actor.init 0 980 10 10).update [Dir.up] env0).1 ∧
    Inv ((Actor.init 0 980 10 10).collideSolid { x := 0, y := 0 }
      (Obstacle.single c7Solid) env0).1 :=
  ⟨grounded_numJumps_zero_invariant.2.2.1 _ [Dir.up] env0
      (grounded_numJumps_zero_invariant.1 0 980 10 10),
   grounded_numJumps_zero_invariant.2.2.2.2.2.1 _ _ _ env0
      (grounded_numJumps_zero_invariant.1 0 980 10 10)⟩

/-! ### C3 — landing through `collideSolid`'s standing-on test -/

lemma moveOutsideX_GRAVITY (a : Actor) (s : Box) :
    ((a.moveOutsideX s).1).GRAVITY = a.GRAVITY := by
  simp only [Actor.moveOutsideX]
  split_ifs <;> rfl

lemma moveOutsideY_GRAVITY (a : Actor) (s : Box) :
    ((a.moveOutsideY s).1).GRAVITY = a.GRAVITY := by
  simp only [Actor.moveOutsideY]
  split_ifs <;> rfl

lemma moveOutside_GRAVITY (a : Actor) (s : Box) :
    ((a.moveOutside s).1).GRAVITY = a.GRAVITY := by
  simp only [Actor.moveOutside]
  split_ifs <;> simp [moveOutsideX_GRAVITY, moveOutsideY_GRAVITY]

lemma afterSeparation_GRAVITY (a : Actor) (s : Box) :
    (a.afterSeparation s).GRAVITY = a.GRAVITY := by
  simp only [Actor.afterSeparation]
  split_ifs <;> simp [moveOutside_GRAVITY]

/-- When the standing-on test (evaluated, as the code does, after
penetration separation and with the x-position shifted back by `moved.x`)
succeeds, `_collideSolidBox` lands the Actor via `stopFalling` and reports
`falling = false`. -/
lemma collideSolidBox_standing_eq (a : Actor) (m : Moved) (s : Box) (e : Env)
    (hg : a.GRAVITY = true)
    (hst : ((a.afterSeparation s).shiftX (-m.x)).standingOn s = true) :
    a.collideSolidBox m s e =
      ((((a.afterSeparation s).shiftX (-m.x)).stopFalling e).shiftX m.x, false,
        a.toBox.overlaps s) := by
  have hg1 : (a.afterSeparation s).GRAVITY = true := by
    rw [afterSeparation_GRAVITY]
    exact hg
  simp only [Actor.collideSolidBox]
  rw [if_pos hg1, hst]
  simp

/-- C3 (amended): after `collideSolid` against a single solid with gravity
enabled, if the standing-on test holds at the position where the code
checks it — the body after penetration separation, shifted back
horizontally by `moved.x` (x-projections overlapping and bottom edge
within epsilon 1 of the solid's top there) — then the Actor is grounded
(`isInAir` is false) and its vertical speed is ≤ 0 (a positive speed is
reset to 0; a negative, rising speed is kept). -/
theorem collideSolid_standing_lands (a : Actor) (m : Moved) (s : Box) (e : Env)
    (hg : a.GRAVITY = true)
    (hst : ((a.afterSeparation s).shiftX (-m.x)).standingOn s = true) :
    (a.collideSolid m (Obstacle.single s) e).1.isInAir = false ∧
    (a.collideSolid m (Obstacle.single s) e).1.speed ≤ 0 := by
  have hbox := collideSolidBox_standing_eq a m s e hg hst
  simp only [Actor.collideSolid, hbox]
  constructor
  · simp [Actor.isInAir, Actor.shiftX, stopFalling_inAir]
  · simp only [Actor.shiftX]
    simpa using stopFalling_speed_nonpos (((a.afterSeparation s).shiftX (-m.x))) e

/-- C3 witness: the amended theorem applied to `c3Actor` standing on
`c3Solid` with no horizontal displacement. -/
theorem collideSolid_standing_lands_witness :
    (c3Actor.collideSolid { x := 0, y := 0 } (Obstacle.single c3Solid) env0).1.isInAir
        = false ∧
    (c3Actor.collideSolid { x := 0, y := 0 } (Obstacle.single c3Solid) env0).1.speed
        ≤ 0 :=
  collideSolid_standing_lands c3Actor { x := 0, y := 0 } c3Solid env0 rfl
    (by norm_num [c3Actor, c3Solid, Actor.init, Actor.afterSeparation,
      Actor.shiftX, Actor.standingOn, Box.overlaps, Box.overlapsX, Box.overlapsY,
      almostEqual, abs_sub_le_iff, abs_le])

/-- C3 (counterexample): after `collideSolid`, the body's bottom edge is
within epsilon 1 of the solid's top edge and their x-projections overlap
(the claim's hypothesis holds of the post-state), yet the Actor is
airborne and its vertical speed is 5, not 0: the code evaluated the
standing-on test at the pre-`moved.x` position (x = −100), where the
x-projections do not overlap. -/
theorem collideSolid_standing_cex :
    ((c3CexActor.collideSolid c3CexMoved (Obstacle.single c3Solid) env0).1.toBox.overlapsX
        c3Solid = true ∧
      almostEqual
        ((c3CexActor.collideSolid c3CexMoved (Obstacle.single c3Solid) env0).1.y +
          (c3CexActor.collideSolid c3CexMoved (Obstacle.single c3Solid) env0).1.height)
        c3Solid.y 1 = true) ∧
    (c3CexActor.collideSolid c3CexMoved (Obstacle.single c3Solid) env0).1.isInAir
        = true ∧
    (c3CexActor.collideSolid c3CexMoved (Obstacle.single c3Solid) env0).1.speed ≠ 0 := by
  norm_num [c3CexActor, c3CexMoved, c3Solid, env0, Actor.init, Actor.collideSolid,
    Actor.collideSolidBox, Actor.afterSeparation, Actor.shiftX, Actor.standingOn,
    Actor.startFalling, Actor.isInAir, Box.overlaps, Box.overlapsX, Box.overlapsY,
    almostEqual, abs_sub_le_iff, abs_le]

/-! ### C5 -- the gravity tick integrates with the pre-update speed -/

/-- With no direction input and continuous movement off, `move` does
nothing. -/
lemma move_nil (a : Actor) (e : Env) (hcont : a.CONTINUOUS_MOVEMENT = false) :
    a.move [] e = (a, { x := 0, y := 0 }) := by
  simp [Actor.move, hcont]

/-- C5 (amended): for a gravity-enabled airborne Actor with vertical speed
0, `G_CONST = 1000` and elapsed time 0.1 s, one `update` tick with no
direction input (continuous movement off, not dragged) and the world
bottom not interfering yields a new vertical speed of 100 but a vertical
displacement of 0: the y-step is `speed * elapsed` computed from the
pre-update speed, before the gravity increment is added. -/
theorem gravity_tick_pre_update_speed (a : Actor) (e : Env)
    (hg : a.GRAVITY = true) (hdrag : a.isBeingDragged = false)
    (hair : a.inAir = true) (hspeed : a.speed = 0) (hG : a.G_CONST = 1000)
    (hdelta : e.lastDelta = 1/10) (hcont : a.CONTINUOUS_MOVEMENT = false)
    (hbound : a.y + a.height ≤ e.worldHeight) :
    (a.update [] e).1.speed = 100 /\ (a.update [] e).2.y = 0 := by
  have hmove := move_nil a e hcont
  simp only [Actor.update, hmove, Actor.isInAir]
  simp only [hdrag, hg, hG, hspeed, hdelta, hair]
  norm_num [hbound]
  split_ifs <;> norm_num

/-- C5 witness: the amended theorem applied to `c5Actor` in `c5Env`. -/
theorem gravity_tick_pre_update_speed_witness :
    (c5Actor.update [] c5Env).1.speed = 100 /\ (c5Actor.update [] c5Env).2.y = 0 :=
  gravity_tick_pre_update_speed c5Actor c5Env rfl rfl rfl rfl rfl rfl rfl
    (by norm_num [c5Actor, c5Env, env0, Actor.init])

/-- C5 (counterexample): in the claim's scenario the new speed is indeed
100, but the vertical displacement is 0, not the claimed 10 pixels
(`moveStep` is computed from the pre-update speed 0). -/
theorem gravity_tick_displacement_cex :
    (c5Actor.update [] c5Env).1.speed = 100 /\ (c5Actor.update [] c5Env).2.y ≠ 10 := by
  norm_num [Actor.update, Actor.move, Actor.isInAir, c5Actor, c5Env, env0, Actor.init]

/-! ### C4 — the multi-jump budget with MULTI_JUMP = 1 -/

/-- The left/right blocks leave every field relevant to jumping unchanged
(only `x`, `fallLeft` and the jump-direction latch can change). -/
lemma moveHoriz_frame (s : MoveState) (d : List Dir) (e : Env) :
    (moveHoriz s d e).actor.y = s.actor.y ∧
    (moveHoriz s d e).actor.speed = s.actor.speed ∧
    (moveHoriz s d e).actor.lastJump = s.actor.lastJump ∧
    (moveHoriz s d e).actor.numJumps = s.actor.numJumps ∧
    (moveHoriz s d e).actor.inAir = s.actor.inAir ∧
    (moveHoriz s d e).actor.jumpKeyDown = s.actor.jumpKeyDown ∧
    (moveHoriz s d e).actor.GRAVITY = s.actor.GRAVITY ∧
    (moveHoriz s d e).actor.MOVEAMOUNT = s.actor.MOVEAMOUNT ∧
    (moveHoriz s d e).actor.JUMP_VEL = s.actor.JUMP_VEL ∧
    (moveHoriz s d e).actor.JUMP_DELAY = s.actor.JUMP_DELAY ∧
    (moveHoriz s d e).actor.JUMP_RELEASE = s.actor.JUMP_RELEASE ∧
    (moveHoriz s d e).actor.MULTI_JUMP = s.actor.MULTI_JUMP ∧
    (moveHoriz s d e).actor.STAY_IN_WORLD = s.actor.STAY_IN_WORLD := by
  simp only [moveHoriz]
  split_ifs <;> simp

/-- The look block changes only `lastLooked`. -/
lemma moveLook_speed (s : MoveState) (d : List Dir) :
    (moveLook s d).actor.speed = s.actor.speed := by
  simp only [moveLook]
  split_ifs <;> rfl

lemma moveLook_lastJump (s : MoveState) (d : List Dir) :
    (moveLook s d).actor.lastJump = s.actor.lastJump := by
  simp only [moveLook]
  split_ifs <;> rfl

/-- When every jump condition holds, the up block executes the jump:
speed set to `-JUMP_VEL`, `lastJump` stamped, `numJumps` incremented,
airborne flag set. -/
lemma moveVert_jump_fields (s : MoveState) (d : List Dir) (e : Env)
    (hup : anyIn keysUp d = true)
    (hbound : s.actor.y - s.actor.MOVEAMOUNT * e.lastDelta ≥ 0 ∨
      s.actor.STAY_IN_WORLD = false)
    (hg : s.actor.GRAVITY = true)
    (hgate : s.actor.inAir = false ∨
      s.actor.MULTI_JUMP > (s.actor.numJumps : Int) ∨ s.actor.MULTI_JUMP = -1)
    (hdelay : e.now - s.actor.lastJump > s.actor.JUMP_DELAY)
    (hrel : s.actor.JUMP_RELEASE = false ∨ s.actor.jumpKeyDown = false) :
    (moveVert s d e).actor.speed = -s.actor.JUMP_VEL ∧
    (moveVert s d e).actor.lastJump = e.now ∧
    (moveVert s d e).actor.numJumps = s.actor.numJumps + 1 ∧
    (moveVert s d e).actor.inAir = true := by
  have h1 : (anyIn keysUp d &&
      (decide (s.actor.y - s.actor.MOVEAMOUNT * e.lastDelta ≥ 0) ||
        !s.actor.STAY_IN_WORLD)) = true := by
    rcases hbound with hb | hb <;> simp [hup, hb]
  have h2 : (!s.actor.GRAVITY) = false := by simp [hg]
  have h3 : (!s.actor.isInAir ||
      decide (s.actor.MULTI_JUMP > (s.actor.numJumps : Int)) ||
      decide (s.actor.MULTI_JUMP = -1)) = true := by
    rcases hgate with hb | hb | hb <;> simp [Actor.isInAir, hb]
  have h4 : (decide (e.now - s.actor.lastJump > s.actor.JUMP_DELAY) &&
      (!s.actor.JUMP_RELEASE || !s.actor.jumpKeyDown)) = true := by
    rcases hrel with hb | hb <;> simp [hdelay, hb]
  simp only [moveVert, h1, h2, h3, h4]
  simp

/-- With gravity on, airborne, and the multi-jump budget exhausted
(`MULTI_JUMP = 1` with `numJumps = 1`), the up block rejects the jump
attempt: no jump field changes (only `jumpKeyDown` may be set). -/
lemma moveVert_reject (s : MoveState) (d : List Dir) (e : Env)
    (hg : s.actor.GRAVITY = true) (hair : s.actor.inAir = true)
    (hmj : s.actor.MULTI_JUMP = 1) (hnum : s.actor.numJumps = 1) :
    (moveVert s d e).actor.numJumps = s.actor.numJumps ∧
    (moveVert s d e).actor.speed = s.actor.speed ∧
    (moveVert s d e).actor.lastJump = s.actor.lastJump ∧
    (moveVert s d e).actor.inAir = s.actor.inAir := by
  simp only [moveVert]
  split_ifs <;> simp_all [Actor.isInAir]

/-- C4 (amended): with gravity enabled and `MULTI_JUMP = 1` — which the
source documents as equivalent to 0 — the budget allows exactly ONE jump
before a landing is required.  First conjunct: from a grounded state, a
jump attempt that passes the world-bound guard, the delay check and the
release check fires: speed becomes `-JUMP_VEL`, `numJumps` becomes 1, the
Actor is airborne and `lastJump` is stamped.  Second conjunct: any further
attempt while airborne with `numJumps = 1` is rejected — `numJumps`,
`speed` and `lastJump` are all left unchanged, so `numJumps` never
exceeds 1 (not 2 as the claim states). -/
theorem multi_jump_budget_one :
    (∀ (a : Actor) (d : List Dir) (e : Env),
      a.GRAVITY = true → a.MULTI_JUMP = 1 → a.inAir = false →
      a.numJumps = 0 → anyIn keysUp d = true →
      (a.y - a.MOVEAMOUNT * e.lastDelta ≥ 0 ∨ a.STAY_IN_WORLD = false) →
      e.now - a.lastJump > a.JUMP_DELAY →
      (a.JUMP_RELEASE = false ∨ a.jumpKeyDown = false) →
      (a.move d e).1.speed = -a.JUMP_VEL ∧
      (a.move d e).1.lastJump = e.now ∧
      (a.move d e).1.numJumps = 1 ∧
      (a.move d e).1.inAir = true) ∧
    (∀ (b : Actor) (d : List Dir) (e : Env),
      b.GRAVITY = true → b.MULTI_JUMP = 1 → b.inAir = true →
      b.numJumps = 1 →
      (b.move d e).1.numJumps = 1 ∧
      (b.move d e).1.speed = b.speed ∧
      (b.move d e).1.lastJump = b.lastJump ∧
      (b.move d e).1.inAir = true) := by
  constructor
  · intro a d e hg hmj hair hnum hup hbound hdelay hrel
    have hne : d.isEmpty = false := by
      cases d with
      | nil => simp [anyIn] at hup
      | cons _ _ => rfl
    simp only [Actor.move, hne, Bool.false_and, Bool.false_eq_true, if_false]
    obtain ⟨hy, hs, hlj, hnj, hia, hkd, hgr, hma, hjv, hjd, hjr, hmjf, hsw⟩ :=
      moveHoriz_frame
        { actor := { a with lastDirection := d }, moved := { x := 0, y := 0 },
          leftPressed := false, rightPressed := false, looked := false } d e
    have hjump := moveVert_jump_fields
      (moveHoriz
        { actor := { a with lastDirection := d }, moved := { x := 0, y := 0 },
          leftPressed := false, rightPressed := false, looked := false } d e) d e
      hup (by rw [hy, hma, hsw]; simpa using hbound)
      (by rw [hgr]; simpa using hg)
      (by rw [hia]; left; simpa using hair)
      (by rw [hlj, hjd]; simpa using hdelay)
      (by rw [hjr, hkd]; simpa using hrel)
    refine ⟨?_, ?_, ?_, ?_⟩
    · rw [moveLook_speed, hjump.1, hjv]
    · rw [moveLook_lastJump, hjump.2.1]
    · rw [moveLook_numJumps, hjump.2.2.1, hnj]
      simpa using hnum
    · rw [moveLook_inAir, hjump.2.2.2]
  · intro b d e hg hmj hair hnum
    by_cases hemp : (d.isEmpty && !b.CONTINUOUS_MOVEMENT) = true
    · simp [Actor.move, hemp, hnum, hair]
    · simp only [Actor.move, hemp, Bool.false_eq_true, if_false]
      obtain ⟨hy, hs, hlj, hnj, hia, hkd, hgr, hma, hjv, hjd, hjr, hmjf, hsw⟩ :=
        moveHoriz_frame
          { actor := { b with lastDirection :=
              if d.isEmpty then b.lastLooked else d },
            moved := { x := 0, y := 0 },
            leftPressed := false, rightPressed := false, looked := false }
          (if d.isEmpty then b.lastLooked else d) e
      have hrej := moveVert_reject
        (moveHoriz
          { actor := { b with lastDirection :=
              if d.isEmpty then b.lastLooked else d },
            moved := { x := 0, y := 0 },
            leftPressed := false, rightPressed := false, looked := false }
          (if d.isEmpty then b.lastLooked else d) e)
        (if d.isEmpty then b.lastLooked else d) e
        (by rw [hgr]; simpa using hg)
        (by rw [hia]; simpa using hair)
        (by rw [hmjf]; simpa using hmj)
        (by rw [hnj]; simpa using hnum)
      refine ⟨?_, ?_, ?_, ?_⟩
      · rw [moveLook_numJumps, hrej.1, hnj]
        simpa using hnum
      · rw [moveLook_speed, hrej.2.1, hs]
      · rw [moveLook_lastJump, hrej.2.2.1, hlj]
      · rw [moveLook_inAir, hrej.2.2.2, hia]
        simpa using hair

/-- C4 witness: the grounded attempt at t = 1000 ms jumps; an airborne
attempt with the budget spent is rejected. -/
theorem multi_jump_budget_one_witness :
    ((c4Actor.move [Dir.up] env0).1.speed = -c4Actor.JUMP_VEL ∧
      (c4Actor.move [Dir.up] env0).1.lastJump = env0.now ∧
      (c4Actor.move [Dir.up] env0).1.numJumps = 1 ∧
      (c4Actor.move [Dir.up] env0).1.inAir = true) ∧
    ((c4AirActor.move [Dir.up] { env0 with now := 2000 }).1.numJumps = 1 ∧
      (c4AirActor.move [Dir.up] { env0 with now := 2000 }).1.speed =
        c4AirActor.speed ∧
      (c4AirActor.move [Dir.up] { env0 with now := 2000 }).1.lastJump =
        c4AirActor.lastJump ∧
      (c4AirActor.move [Dir.up] { env0 with now := 2000 }).1.inAir = true) :=
  ⟨multi_jump_budget_one.1 c4Actor [Dir.up] env0 rfl rfl rfl rfl (by decide)
      (Or.inl (by norm_num [c4Actor, env0, Actor.init]))
      (by norm_num [c4Actor, env0, Actor.init])
      (Or.inl rfl),
   multi_jump_budget_one.2 c4AirActor [Dir.up] { env0 with now := 2000 }
      rfl rfl rfl rfl⟩

/-- C4 (counterexample): starting grounded with `MULTI_JUMP = 1`, two
successive jump attempts (at t = 1000 and t = 2000 ms, both satisfying the
delay and release conditions) leave `numJumps` at 1 and `lastJump` at
1000: the second attempt did not jump, so the claimed second
speed-setting (with `numJumps` reaching 2) never happens. -/
theorem multi_jump_budget_one_cex :
    ((c4Actor.move [Dir.up] env0).1.move [Dir.up]
        { env0 with now := 2000 }).1.numJumps = 1 ∧
    ((c4Actor.move [Dir.up] env0).1.move [Dir.up]
        { env0 with now := 2000 }).1.lastJump = 1000 := by
  have hL : anyIn keysLeft [Dir.up] = false := by decide
  have hR : anyIn keysRight [Dir.up] = false := by decide
  have hU : anyIn keysUp [Dir.up] = true := by decide
  norm_num [Actor.move, moveHoriz, moveVert, moveLook, hL, hR, hU,
    Actor.isInAir, c4Actor, env0, Actor.init]

/-! ### C6 — when the grounded-to-jumping transition fires -/

/-- For a grounded, gravity-enabled Actor whose up press passes the
world-bound guard, the up block jumps exactly when the delay check
(strictly more than `JUMP_DELAY` ms since the last jump) and the
release check pass. -/
lemma moveVert_numJumps_grounded (s : MoveState) (d : List Dir) (e : Env)
    (hg : s.actor.GRAVITY = true) (hair : s.actor.inAir = false)
    (hnum : s.actor.numJumps = 0)
    (hbound : s.actor.y - s.actor.MOVEAMOUNT * e.lastDelta ≥ 0 ∨
      s.actor.STAY_IN_WORLD = false) :
    ((moveVert s d e).actor.numJumps = 1 ↔
      (anyIn keysUp d = true ∧ e.now - s.actor.lastJump > s.actor.JUMP_DELAY ∧
        (s.actor.JUMP_RELEASE = false ∨ s.actor.jumpKeyDown = false))) := by
  have hboundb : (decide (s.actor.y - s.actor.MOVEAMOUNT * e.lastDelta ≥ 0) ||
      !s.actor.STAY_IN_WORLD) = true := by
    rcases hbound with hb | hb <;> simp [hb]
  simp only [moveVert, hboundb, Bool.and_true]
  split_ifs <;> simp_all [Actor.isInAir] <;> tauto

/-- No call to `move` changes the vertical speed when the elapsed time
since the last jump is at most `JUMP_DELAY` (the delay check is strict). -/
lemma moveVert_speed_delay (s : MoveState) (d : List Dir) (e : Env)
    (hdelay : e.now - s.actor.lastJump ≤ s.actor.JUMP_DELAY) :
    (moveVert s d e).actor.speed = s.actor.speed := by
  simp only [moveVert]
  split_ifs <;> simp_all <;> linarith

/-- C6 (amended): for a grounded gravity-enabled Actor (continuous
movement off, up press passing the world-bound guard — and the multi-jump
condition trivially true when grounded), the grounded-to-jumping
transition fires exactly when jump input is received, the elapsed time
since the last jump is STRICTLY GREATER than `JUMP_DELAY` (at exactly
`JUMP_DELAY` it does not fire), and jump-release is not required or the
jump key was released.  Consequently (second conjunct, for any Actor) a
jump attempt within `JUMP_DELAY` (inclusive) of the previous jump never
changes the vertical speed, so two attempts within `JUMP_DELAY` of each
other produce exactly one speed change. -/
theorem grounded_jump_iff :
    (∀ (a : Actor) (d : List Dir) (e : Env),
      a.GRAVITY = true → a.CONTINUOUS_MOVEMENT = false → a.inAir = false →
      a.numJumps = 0 →
      (a.y - a.MOVEAMOUNT * e.lastDelta ≥ 0 ∨ a.STAY_IN_WORLD = false) →
      ((a.move d e).1.numJumps = 1 ↔
        (anyIn keysUp d = true ∧ e.now - a.lastJump > a.JUMP_DELAY ∧
          (a.JUMP_RELEASE = false ∨ a.jumpKeyDown = false)))) ∧
    (∀ (b : Actor) (d : List Dir) (e : Env),
      e.now - b.lastJump ≤ b.JUMP_DELAY → (b.move d e).1.speed = b.speed) := by
  constructor
  · intro a d e hg hcont hair hnum hbound
    cases d with
    | nil =>
        simp [Actor.move, hcont, anyIn, hnum]
    | cons t ts =>
        have hne : (t :: ts).isEmpty = false := rfl
        simp only [Actor.move, hne, Bool.false_and, Bool.false_eq_true, if_false]
        obtain ⟨hy, hs, hlj, hnj, hia, hkd, hgr, hma, hjv, hjd, hjr, hmjf, hsw⟩ :=
          moveHoriz_frame
            { actor := { a with lastDirection := t :: ts },
              moved := { x := 0, y := 0 },
              leftPressed := false, rightPressed := false, looked := false }
            (t :: ts) e
        have hiff := moveVert_numJumps_grounded
          (moveHoriz
            { actor := { a with lastDirection := t :: ts },
              moved := { x := 0, y := 0 },
              leftPressed := false, rightPressed := false, looked := false }
            (t :: ts) e) (t :: ts) e
          (by rw [hgr]; simpa using hg)
          (by rw [hia]; simpa using hair)
          (by rw [hnj]; simpa using hnum)
          (by rw [hy, hma, hsw]; simpa using hbound)
        rw [moveLook_numJumps, hiff, hlj, hjd, hjr, hkd]
  · intro b d e hdelay
    by_cases hemp : (d.isEmpty && !b.CONTINUOUS_MOVEMENT) = true
    · simp [Actor.move, hemp]
    · simp only [Actor.move, hemp, Bool.false_eq_true, if_false]
      obtain ⟨hy, hs, hlj, hnj, hia, hkd, hgr, hma, hjv, hjd, hjr, hmjf, hsw⟩ :=
        moveHoriz_frame
          { actor := { b with lastDirection :=
              if d.isEmpty then b.lastLooked else d },
            moved := { x := 0, y := 0 },
            leftPressed := false, rightPressed := false, looked := false }
          (if d.isEmpty then b.lastLooked else d) e
      rw [moveLook_speed,
        moveVert_speed_delay _ _ _ (by rw [hlj, hjd]; simpa using hdelay), hs]

/-- C6 witness: the iff applied to a jump attempt at t = 1000 ms, and the
no-speed-change conjunct applied to an attempt at t = 100 ms
(within the 250 ms delay). -/
theorem grounded_jump_iff_witness :
    ((c6Actor.move [Dir.up] env0).1.numJumps = 1 ↔
      (anyIn keysUp [Dir.up] = true ∧
        env0.now - c6Actor.lastJump > c6Actor.JUMP_DELAY ∧
        (c6Actor.JUMP_RELEASE = false ∨ c6Actor.jumpKeyDown = false))) ∧
    (c6Actor.move [Dir.up] { env0 with now := 100 }).1.speed = c6Actor.speed :=
  ⟨grounded_jump_iff.1 c6Actor [Dir.up] env0 rfl rfl rfl rfl
      (Or.inl (by norm_num [c6Actor, env0, Actor.init])),
   grounded_jump_iff.2 c6Actor [Dir.up] { env0 with now := 100 }
      (by norm_num [c6Actor, env0, Actor.init])⟩

/-- C6 (counterexample): a jump attempt exactly `JUMP_DELAY` = 250 ms
after the last jump satisfies every condition of the claim (elapsed ≥
delay, grounded, jump input, release ok), yet the transition does not
fire: `numJumps` stays 0 and the speed stays 0, because the code's delay
check is strict (`now - lastJump > JUMP_DELAY`). -/
theorem grounded_jump_iff_cex :
    ({ env0 with now := 250 } : Env).now - c6Actor.lastJump =
        c6Actor.JUMP_DELAY ∧
    (c6Actor.move [Dir.up] { env0 with now := 250 }).1.numJumps = 0 ∧
    (c6Actor.move [Dir.up] { env0 with now := 250 }).1.speed = 0 := by
  have hL : anyIn keysLeft [Dir.up] = false := by decide
  have hR : anyIn keysRight [Dir.up] = false := by decide
  have hU : anyIn keysUp [Dir.up] = true := by decide
  norm_num [Actor.move, moveHoriz, moveVert, moveLook, hL, hR, hU,
    Actor.isInAir, c6Actor, env0, Actor.init]

end Actors
